import Mathlib

/-!
Shallow embedding of the generator core of QCoro (`src/qcoro/qcorogenerator.h`):
`GeneratorPromise<T>`, `GeneratorIterator<T>` and `Generator<T>`.

The producer coroutine body is embedded as a `Producer T`: a finite sequence of
`co_yield` steps ending either in a normal return (`ret`, i.e. falling off the
end / `co_return`) or in an uncaught exception (`throws e`).  Exceptions
(`std::exception_ptr` values) are identified by a natural number so that
identity of the re-raised exception can be stated.

C++ coroutine semantics drives the body between suspend points.  The three
suspend points of this generator are: initial suspend (`initial_suspend`
returns `std::suspend_always`, so the body has not run at all when the
`Generator` object is handed to the caller), each `co_yield` (via
`yield_value`, which returns `std::suspend_always`), and the final suspend
point.  Per the C++ standard, when the body ends — normally or by an escaping
exception (which first calls `promise.unhandled_exception()`) — control falls
through to `co_await promise.final_suspend()`.  `resumeStep` below performs
exactly one such drive, composing the promise hooks in that order.

Mutation of the coroutine frame through a handle is modelled by explicit state
passing: operations return the updated frame alongside their result.
-/

namespace QCoro

/-- Identity of a `std::exception_ptr` captured from a thrown exception. -/
abbrev Exn := Nat

/-- The remaining producer coroutine body, as seen from its current suspend
point: a sequence of `co_yield`s ending in a normal return or in a thrown
exception. -/
inductive Producer (T : Type) where
  | ret : Producer T
  | throws : Exn → Producer T
  | yield : T → Producer T → Producer T
deriving DecidableEq, Repr

/-- The variant `std::variant<std::monostate, T, std::exception_ptr>` stored in
`GeneratorPromise<T>::mValue`. -/
inductive MValue (T : Type) where
  | monostate : MValue T
  | value : T → MValue T
  | exception : Exn → MValue T
deriving DecidableEq, Repr

/-- `QCoro::detail::GeneratorPromise<T>`: its single data member `mValue`. -/
structure GeneratorPromise (T : Type) where
  mValue : MValue T
deriving DecidableEq, Repr

namespace GeneratorPromise

/-- `yield_value(From &&from)`: stores the yielded value into `mValue`
(`mValue.emplace<T>(...)`, overwriting any prior content) and suspends. -/
def yield_value (_p : GeneratorPromise T) (v : T) : GeneratorPromise T :=
  ⟨MValue.value v⟩

/-- `unhandled_exception()`: stores `std::current_exception()` into `mValue`. -/
def unhandled_exception (_p : GeneratorPromise T) (e : Exn) : GeneratorPromise T :=
  ⟨MValue.exception e⟩

/-- The body of `final_suspend()` before it suspends: assigns
`mValue = std::monostate{}`, unconditionally. -/
def final_suspend (_p : GeneratorPromise T) : GeneratorPromise T :=
  ⟨MValue.monostate⟩

/-- `exception()`: the stored `std::exception_ptr` if `mValue` holds one,
otherwise a null `std::exception_ptr{}` (modelled as `none`). -/
def exception (p : GeneratorPromise T) : Option Exn :=
  match p.mValue with
  | MValue.exception e => some e
  | _ => none

/-- `value()`: `std::get<T>(mValue)`; defined only when `mValue` holds a `T`
(`std::get` on another alternative is an error, modelled as `none`). -/
def value (p : GeneratorPromise T) : Option T :=
  match p.mValue with
  | MValue.value v => some v
  | _ => none

/-- `finished()`: `std::holds_alternative<std::monostate>(mValue)`. -/
def finished (p : GeneratorPromise T) : Bool :=
  match p.mValue with
  | MValue.monostate => true
  | _ => false

/-- `std::holds_alternative<T>(mValue)`. -/
def holdsValue (p : GeneratorPromise T) : Bool :=
  match p.mValue with
  | MValue.value _ => true
  | _ => false

/-- `std::holds_alternative<std::exception_ptr>(mValue)`. -/
def holdsException (p : GeneratorPromise T) : Bool :=
  match p.mValue with
  | MValue.exception _ => true
  | _ => false

end GeneratorPromise

/-- One `coroutine_handle::resume()`: runs the suspended body until its next
suspend point.  A `co_yield v` calls `yield_value` and suspends; a normal end
of the body runs `return_void()` (a no-op) and then the final suspend point
(`final_suspend`); an escaping exception calls `unhandled_exception` and then
falls through to the same final suspend point. -/
def resumeStep (b : Producer T) (p : GeneratorPromise T) :
    Producer T × GeneratorPromise T :=
  match b with
  | Producer.yield v rest => (rest, p.yield_value v)
  | Producer.ret => (Producer.ret, p.final_suspend)
  | Producer.throws e => (Producer.ret, (p.unhandled_exception e).final_suspend)

/-- `QCoro::Generator<T>` together with the coroutine frame it exclusively
owns: `addr` is the address identity of `mGeneratorCoroutine` (the
`std::coroutine_handle`), `body` the remaining producer body after the current
suspend point, `promise` the `GeneratorPromise<T>` living in the frame. -/
structure Generator (T : Type) where
  addr : Nat
  body : Producer T
  promise : GeneratorPromise T
deriving DecidableEq, Repr

/-- Invoking the producer coroutine: the frame is allocated with the whole
body still to run, the promise is default-constructed (`mValue` holds
`std::monostate`), `get_return_object()` wraps the handle in a `Generator`,
and `initial_suspend()` returns `std::suspend_always`, so the coroutine is
suspended before any producer logic runs. -/
def Generator.create (addr : Nat) (body : Producer T) : Generator T :=
  ⟨addr, body, ⟨MValue.monostate⟩⟩

/-- `QCoro::detail::GeneratorIterator<T>`: holds
`std::coroutine_handle<promise_type> mGeneratorCoroutine{nullptr}` — `none`
models the null handle, `some a` a handle to the frame at address `a`. -/
structure GeneratorIterator (T : Type) where
  mGeneratorCoroutine : Option Nat
deriving DecidableEq, Repr

namespace GeneratorIterator

/-- `operator++()`: `if (!mGeneratorCoroutine) return *this;` then
`mGeneratorCoroutine.resume()`, and if `promise().finished()` the handle is
set to `nullptr`.  The frame the live iterator points into is the generator's
frame, passed and returned explicitly. -/
def inc (it : GeneratorIterator T) (g : Generator T) :
    GeneratorIterator T × Generator T :=
  match it.mGeneratorCoroutine with
  | none => (it, g)
  | some _ =>
    let r := resumeStep g.body g.promise
    let g' : Generator T := ⟨g.addr, r.1, r.2⟩
    if r.2.finished then (⟨none⟩, g') else (it, g')

/-- The outcome of `operator*()`. -/
inductive DerefResult (T : Type) where
  | val : T → DerefResult T
  | rethrown : Exn → DerefResult T
  | badVariantAccess : DerefResult T
deriving DecidableEq, Repr

/-- `operator*()`: `if (promise().exception()) std::rethrow_exception(...);
return promise().value();`.  Reads the promise of the frame the iterator
points into (dereferencing the null iterator is a caller error); `std::get`
hitting a non-value alternative is `badVariantAccess`. -/
def deref (g : Generator T) : DerefResult T :=
  match g.promise.exception with
  | some e => DerefResult.rethrown e
  | none =>
    match g.promise.value with
    | some v => DerefResult.val v
    | none => DerefResult.badVariantAccess

/-- `operator==`: compares the two stored coroutine handles. -/
def iterEq (a b : GeneratorIterator T) : Bool :=
  a.mGeneratorCoroutine == b.mGeneratorCoroutine

end GeneratorIterator

/-- `Generator<T>::begin()`: `mGeneratorCoroutine.resume();` then, if
`promise().finished()`, returns the null iterator, else an iterator holding
the handle. -/
def Generator.begin (g : Generator T) :
    GeneratorIterator T × Generator T :=
  let r := resumeStep g.body g.promise
  let g' : Generator T := ⟨g.addr, r.1, r.2⟩
  if r.2.finished then (⟨none⟩, g') else (⟨some g.addr⟩, g')

/-- `Generator<T>::end()`: returns `GeneratorIterator<T>{nullptr}`; the frame
is returned untouched (the method reads nothing from it). -/
def Generator.endIter (g : Generator T) :
    GeneratorIterator T × Generator T :=
  (⟨none⟩, g)

/-- The values the producer body yields before completing, in order. -/
def Producer.yields : Producer T → List T
  | Producer.ret => []
  | Producer.throws _ => []
  | Producer.yield v rest => v :: yields rest

/-- Whether the producer body completes by returning normally (rather than by
throwing). -/
def Producer.endsNormally : Producer T → Bool
  | Producer.ret => true
  | Producer.throws _ => false
  | Producer.yield _ rest => endsNormally rest

/-- Number of suspend-to-suspend drives needed to run the body to its final
suspend point. -/
def Producer.size : Producer T → Nat
  | Producer.ret => 1
  | Producer.throws _ => 1
  | Producer.yield _ rest => size rest + 1

/-- The standard forward-traversal idiom
`for (auto it = gen.begin(); it != gen.end(); ++it) use(*it);`, started from
an already-constructed iterator: while the cursor is not the sentinel,
dereference then advance.  `fuel` bounds the number of iterations; it returns
the observed dereference results together with the final iterator and frame. -/
def traverse (fuel : Nat) (it : GeneratorIterator T) (g : Generator T) :
    List (GeneratorIterator.DerefResult T) × GeneratorIterator T × Generator T :=
  match fuel with
  | 0 => ([], it, g)
  | fuel' + 1 =>
    match it.mGeneratorCoroutine with
    | none => ([], it, g)
    | some _ =>
      let r := GeneratorIterator.deref g
      let s := GeneratorIterator.inc it g
      let t := traverse fuel' s.1 s.2
      (r :: t.1, t.2)

/-- One suspend-to-suspend drive as performed by both `Generator::begin()` and
`GeneratorIterator::operator++()`: resume the frame, then hold the handle in
the iterator unless the coroutine finished, in which case the iterator is the
null iterator. -/
def stepState (addr : Nat) (b : Producer T) (pr : GeneratorPromise T) :
    GeneratorIterator T × Generator T :=
  let r := resumeStep b pr
  if r.2.finished then (⟨none⟩, ⟨addr, r.1, r.2⟩)
  else (⟨some addr⟩, ⟨addr, r.1, r.2⟩)

end QCoro

open QCoro

theorem begin_eq_stepState {T : Type} (g : Generator T) :
    g.begin = stepState g.addr g.body g.promise := rfl

theorem inc_some_eq_stepState {T : Type} (a : Nat) (b : Producer T)
    (pr : GeneratorPromise T) :
    GeneratorIterator.inc ⟨some a⟩ ⟨a, b, pr⟩ = stepState a b pr := rfl

theorem traverse_none {T : Type} (fuel : Nat) (g : Generator T) :
    traverse fuel (⟨none⟩ : GeneratorIterator T) g = ([], ⟨none⟩, g) := by
  cases fuel <;> rfl

theorem traverse_succ_some {T : Type} (f : Nat) (a : Nat) (g : Generator T) :
    traverse (f + 1) (⟨some a⟩ : GeneratorIterator T) g =
      (GeneratorIterator.deref g ::
          (traverse f (GeneratorIterator.inc ⟨some a⟩ g).1
            (GeneratorIterator.inc ⟨some a⟩ g).2).1,
        (traverse f (GeneratorIterator.inc ⟨some a⟩ g).1
          (GeneratorIterator.inc ⟨some a⟩ g).2).2) := rfl

/-- Full-traversal lemma: starting from the iterator/frame produced by one
drive of a normally-completing producer `p`, traversing with `p.size` fuel
observes exactly `p.yields` (each as a plain value) and ends with the null
iterator on the finished frame. -/
theorem traverse_stepState {T : Type} (p : Producer T) :
    ∀ (fuel : Nat) (addr : Nat) (pr : GeneratorPromise T),
      p.endsNormally = true → p.size ≤ fuel →
      traverse fuel (stepState addr p pr).1 (stepState addr p pr).2 =
        ((p.yields).map GeneratorIterator.DerefResult.val, ⟨none⟩,
          ⟨addr, Producer.ret, ⟨MValue.monostate⟩⟩) := by
  induction p with
  | ret =>
    intro fuel addr pr _ _
    have hs : stepState addr (Producer.ret : Producer T) pr =
        (⟨none⟩, ⟨addr, Producer.ret, ⟨MValue.monostate⟩⟩) := rfl
    rw [hs, traverse_none]
    simp [Producer.yields]
  | throws e =>
    intro fuel addr pr hp _
    simp [Producer.endsNormally] at hp
  | yield v rest ih =>
    intro fuel addr pr hp hf
    have hs : stepState addr (Producer.yield v rest) pr =
        (⟨some addr⟩, ⟨addr, rest, ⟨MValue.value v⟩⟩) := rfl
    rw [hs]
    cases fuel with
    | zero =>
      exact absurd hf (by simp [Producer.size])
    | succ f =>
      have hf' : rest.size ≤ f := by
        simp [Producer.size] at hf
        omega
      have hp' : rest.endsNormally = true := by
        simpa [Producer.endsNormally] using hp
      rw [traverse_succ_some, inc_some_eq_stepState]
      rw [ih f addr ⟨MValue.value v⟩ hp' hf']
      simp [GeneratorIterator.deref, GeneratorPromise.exception,
        GeneratorPromise.value, Producer.yields]

/-- Claim C1: for every producer that yields values v1..vn and then completes
normally, a full traversal (begin, then repeatedly dereference and advance
until the cursor equals end) observes exactly v1..vn in that order, and after
the last value the cursor compares equal to the end cursor. -/
theorem traversal_observes_yields_in_order {T : Type} (addr : Nat)
    (p : Producer T) (hp : p.endsNormally = true) :
    ((traverse p.size ((Generator.create addr p).begin).1
        ((Generator.create addr p).begin).2).1 =
      (p.yields).map GeneratorIterator.DerefResult.val) ∧
    GeneratorIterator.iterEq
      ((traverse p.size ((Generator.create addr p).begin).1
        ((Generator.create addr p).begin).2).2.1)
      (((Generator.create addr p).endIter).1) = true := by
  have hb : (Generator.create addr p).begin =
      stepState addr p ⟨MValue.monostate⟩ := rfl
  rw [hb, traverse_stepState p p.size addr ⟨MValue.monostate⟩ hp (le_refl _)]
  exact ⟨rfl, rfl⟩

/-- Witness for the C1 theorem: the producer yielding 1 then 2, then
returning. -/
theorem traversal_observes_yields_in_order_witness :
    (Producer.yield 1 (Producer.yield 2 Producer.ret) : Producer Nat).endsNormally = true ∧
    (((traverse (Producer.yield 1 (Producer.yield 2 Producer.ret) : Producer Nat).size
        ((Generator.create 0 (Producer.yield 1 (Producer.yield 2 Producer.ret))).begin).1
        ((Generator.create 0 (Producer.yield 1 (Producer.yield 2 Producer.ret))).begin).2).1 =
      ((Producer.yield 1 (Producer.yield 2 Producer.ret) : Producer Nat).yields).map
        GeneratorIterator.DerefResult.val) ∧
    GeneratorIterator.iterEq
      ((traverse (Producer.yield 1 (Producer.yield 2 Producer.ret) : Producer Nat).size
        ((Generator.create 0 (Producer.yield 1 (Producer.yield 2 Producer.ret))).begin).1
        ((Generator.create 0 (Producer.yield 1 (Producer.yield 2 Producer.ret))).begin).2).2.1)
      (((Generator.create 0 (Producer.yield 1 (Producer.yield 2 Producer.ret))).endIter).1) = true) :=
  ⟨by decide, traversal_observes_yields_in_order 0 _ (by decide)⟩

/-- Claim C2, code behavior: after every drive of the producer to a suspend
point, the promise never holds an observable exception (the final suspend
step has already overwritten any captured one with monostate), so
dereference can never re-raise a captured failure — contradicting the
claimed deferred re-raise at the next dereference. -/
theorem no_observable_failure_after_resume {T : Type} (b : Producer T)
    (pr : GeneratorPromise T) (addr : Nat) (b' : Producer T) (e : Exn) :
    ((resumeStep b pr).2).exception = none ∧
    GeneratorIterator.deref ⟨addr, b', (resumeStep b pr).2⟩ ≠
      GeneratorIterator.DerefResult.rethrown e := by
  cases b <;>
    simp [resumeStep, GeneratorPromise.exception, GeneratorPromise.final_suspend,
      GeneratorPromise.unhandled_exception, GeneratorPromise.yield_value,
      GeneratorIterator.deref, GeneratorPromise.value]

/-- Claim C3, code behavior at the failing input: for the producer that
throws exception 7 before any yield, begin() returns the null iterator,
which compares equal to end(), and the exception is no longer observable in
the promise — contradicting the claimed begin-not-equal-end and re-raise on
dereference. -/
theorem throw_before_yield_begin_equals_end :
    ((Generator.create 0 (Producer.throws 7 : Producer Nat)).begin).1 =
      (⟨none⟩ : GeneratorIterator Nat) ∧
    GeneratorIterator.iterEq
      (((Generator.create 0 (Producer.throws 7 : Producer Nat)).begin).1)
      (((Generator.create 0 (Producer.throws 7 : Producer Nat)).endIter).1) = true ∧
    ((Generator.create 0 (Producer.throws 7 : Producer Nat)).begin).2.promise.exception
      = none := by decide

/-- Claim C4, code behavior at the failing input: for the producer that
yields 1 and then throws exception 7, the first dereference returns 1, but
already the first advance makes the cursor the null iterator equal to end(),
with no observable exception left — contradicting the claimed re-raise at
the second dereference followed by a further advance to end. -/
theorem yield_then_throw_first_advance_reaches_end :
    GeneratorIterator.deref
      (((Generator.create 0 (Producer.yield 1 (Producer.throws 7) : Producer Nat)).begin).2) =
      GeneratorIterator.DerefResult.val 1 ∧
    (GeneratorIterator.inc
      (((Generator.create 0 (Producer.yield 1 (Producer.throws 7) : Producer Nat)).begin).1)
      (((Generator.create 0 (Producer.yield 1 (Producer.throws 7) : Producer Nat)).begin).2)).1 =
      (⟨none⟩ : GeneratorIterator Nat) ∧
    GeneratorIterator.iterEq
      ((GeneratorIterator.inc
        (((Generator.create 0 (Producer.yield 1 (Producer.throws 7) : Producer Nat)).begin).1)
        (((Generator.create 0 (Producer.yield 1 (Producer.throws 7) : Producer Nat)).begin).2)).1)
      (((Generator.create 0 (Producer.yield 1 (Producer.throws 7) : Producer Nat)).endIter).1) = true ∧
    (GeneratorIterator.inc
      (((Generator.create 0 (Producer.yield 1 (Producer.throws 7) : Producer Nat)).begin).1)
      (((Generator.create 0 (Producer.yield 1 (Producer.throws 7) : Producer Nat)).begin).2)).2.promise.exception
      = none := by decide

/-- Claim C5: for every producer that finishes immediately without yielding
any value, begin() returns the null iterator, which compares equal to
end(), and a traversal from it observes no value at all. -/
theorem empty_producer_begin_equals_end {T : Type} (addr : Nat) (fuel : Nat) :
    ((Generator.create addr (Producer.ret : Producer T)).begin).1 =
      (⟨none⟩ : GeneratorIterator T) ∧
    GeneratorIterator.iterEq
      (((Generator.create addr (Producer.ret : Producer T)).begin).1)
      (((Generator.create addr (Producer.ret : Producer T)).endIter).1) = true ∧
    (traverse fuel ((Generator.create addr (Producer.ret : Producer T)).begin).1
      ((Generator.create addr (Producer.ret : Producer T)).begin).2).1 = [] := by
  have hb : (Generator.create addr (Producer.ret : Producer T)).begin =
      (⟨none⟩, ⟨addr, Producer.ret, ⟨MValue.monostate⟩⟩) := rfl
  rw [hb]
  refine ⟨rfl, rfl, ?_⟩
  rw [traverse_none]

/-- Claim C6: the sentinel is absorbing — advancing the null iterator is a
no-op that leaves both the iterator and the generator frame (the producer
computation) unchanged, and the iterator still compares equal to end(). -/
theorem sentinel_advance_is_noop {T : Type} (g : Generator T) :
    GeneratorIterator.inc (⟨none⟩ : GeneratorIterator T) g = (⟨none⟩, g) ∧
    GeneratorIterator.iterEq
      ((GeneratorIterator.inc (⟨none⟩ : GeneratorIterator T) g).1)
      ((g.endIter).1) = true :=
  ⟨rfl, rfl⟩

/-- Claim C7: end() is side-effect-free (it returns the frame untouched) and
idempotent — its result compares equal to any other end() result, from the
same or a different generator, and to the fully-advanced cursor of a
normally finished traversal. -/
theorem end_cursor_pure_and_idempotent {T : Type} (g g2 gx : Generator T)
    (addr : Nat) (p : Producer T) (hp : p.endsNormally = true) :
    (g.endIter).2 = g ∧
    GeneratorIterator.iterEq ((g.endIter).1) ((g2.endIter).1) = true ∧
    GeneratorIterator.iterEq
      ((traverse p.size ((Generator.create addr p).begin).1
        ((Generator.create addr p).begin).2).2.1)
      ((gx.endIter).1) = true := by
  refine ⟨rfl, rfl, ?_⟩
  have hb : (Generator.create addr p).begin =
      stepState addr p ⟨MValue.monostate⟩ := rfl
  rw [hb, traverse_stepState p p.size addr ⟨MValue.monostate⟩ hp (le_refl _)]
  rfl

/-- Witness for the C7 theorem: three distinct generators and the empty
producer. -/
theorem end_cursor_pure_and_idempotent_witness :
    (Producer.ret : Producer Nat).endsNormally = true ∧
    (((Generator.create 1 (Producer.yield 5 Producer.ret) : Generator Nat).endIter).2 =
        Generator.create 1 (Producer.yield 5 Producer.ret) ∧
      GeneratorIterator.iterEq
        (((Generator.create 1 (Producer.yield 5 Producer.ret) : Generator Nat).endIter).1)
        (((Generator.create 2 Producer.ret : Generator Nat).endIter).1) = true ∧
      GeneratorIterator.iterEq
        ((traverse (Producer.ret : Producer Nat).size
          ((Generator.create 0 (Producer.ret : Producer Nat)).begin).1
          ((Generator.create 0 (Producer.ret : Producer Nat)).begin).2).2.1)
        (((Generator.create 3 (Producer.throws 4) : Generator Nat).endIter).1) = true) :=
  ⟨by decide,
    end_cursor_pure_and_idempotent
      (Generator.create 1 (Producer.yield 5 Producer.ret))
      (Generator.create 2 Producer.ret)
      (Generator.create 3 (Producer.throws 4))
      0 Producer.ret (by decide)⟩

/-- Claim C8: the slot (mValue) holds at most one of a produced value and a
captured failure — in every state and after each of the three slot
transitions (yield, finish, failure capture). -/
theorem slot_holds_at_most_one_of_value_failure {T : Type}
    (pr : GeneratorPromise T) (v : T) (e : Exn) :
    ((pr.holdsValue && pr.holdsException) = false) ∧
    (((pr.yield_value v).holdsValue && (pr.yield_value v).holdsException) = false) ∧
    (((pr.final_suspend).holdsValue && (pr.final_suspend).holdsException) = false) ∧
    (((pr.unhandled_exception e).holdsValue &&
        (pr.unhandled_exception e).holdsException) = false) := by
  obtain ⟨m⟩ := pr
  cases m <;>
    simp [GeneratorPromise.holdsValue, GeneratorPromise.holdsException,
      GeneratorPromise.yield_value, GeneratorPromise.final_suspend,
      GeneratorPromise.unhandled_exception]

/-- Claim C9: invoking the producer creates the generator with the whole body
still pending and the default-constructed promise (no producer logic has
run), and begin() then performs exactly one drive of the body to its first
suspend point. -/
theorem producer_not_run_until_begin {T : Type} (addr : Nat) (p : Producer T) :
    (Generator.create addr p).body = p ∧
    (Generator.create addr p).promise = ⟨MValue.monostate⟩ ∧
    ((Generator.create addr p).begin).2 =
      ⟨addr, (resumeStep p ⟨MValue.monostate⟩).1,
        (resumeStep p ⟨MValue.monostate⟩).2⟩ := by
  refine ⟨rfl, rfl, ?_⟩
  show (stepState addr p ⟨MValue.monostate⟩).2 = _
  cases hfin : (resumeStep p ⟨MValue.monostate⟩).2.finished <;>
    simp [stepState, hfin]

/-- Claim C10: the final suspend step unconditionally overwrites the slot
with the finished marker, so finished() is true after it — including when an
exception had just been captured by unhandled_exception, which is thereby
overwritten. -/
theorem final_suspend_always_marks_finished {T : Type}
    (pr : GeneratorPromise T) (e : Exn) :
    ((pr.final_suspend).finished = true) ∧
    ((pr.unhandled_exception e).final_suspend = ⟨MValue.monostate⟩) ∧
    (((pr.unhandled_exception e).final_suspend).finished = true) :=
  ⟨rfl, rfl, rfl⟩
